import Mathlib

/-!
Verification of the event-driven workflow kernel core (`src/kernel`):
shallow embedding of the routing table, SPSC rings, workflow engine,
notify(Submit) syscall path, Execution-deck cleanup and the Operations
deck algorithms, with theorems settling the frozen claims.

Machine integers are modelled as `Nat` with explicit `% 2^w` where
overflow can matter; heap pointers are modelled as `Nat` values
(0 = NULL); `kmalloc` is modelled as always succeeding (the source
returns an error only when allocation fails, which is outside the
properties considered here).
-/

namespace EDKernel

/-- 2^32, for `uint32_t` wrap-around arithmetic. -/
def U32 : Nat := 4294967296

/-- 2^64, for `uint64_t` wrap-around arithmetic. -/
def U64 : Nat := 18446744073709551616

/-- From `workflow_rings.h`: EVENT_RING_SIZE. -/
def EVENT_RING_SIZE : Nat := 256

/-- From `workflow_rings.h`: RESULT_RING_SIZE. -/
def RESULT_RING_SIZE : Nat := 256

/-- From `workflow_rings.h`: MAX_ROUTING_STEPS. -/
def MAX_ROUTING_STEPS : Nat := 8

/-- From `workflow_rings.h`: EVENT_PAYLOAD_SIZE (ring-event payload bytes). -/
def EVENT_PAYLOAD_SIZE : Nat := 512

/-- Modelled from the spec: `EVENT_DATA_SIZE` lives in `events.h`, which is
not under `src/`; the comment in `routing_table.c` ("up to EVENT_DATA_SIZE =
224 bytes") and the spec's payload-snapshot description pin it to 224. -/
def EVENT_DATA_SIZE : Nat := 224

/-- Modelled from the spec: `ROUTING_TABLE_SIZE` lives in `routing_table.h`,
which is not under `src/`; the comment in `guide.c` ("ROUTING_TABLE_SIZE =
64") and the spec ("power of two, default 64") pin it to 64. -/
def ROUTING_TABLE_SIZE : Nat := 64

/-- From `syscall.h` via `idt.c`: maximum accepted payload size at Submit. -/
def MAX_EVENT_PAYLOAD_SIZE : Nat := 512

/-- From `idt.c`: maximum "sane" event type at Submit (check is warn-only). -/
def MAX_EVENT_TYPE : Nat := 255

/-- From `errors.h`. -/
def ERROR_TIMEOUT : Nat := 0x0004

/-- From `errors.h`. -/
def ERROR_RESOURCE_BUSY : Nat := 0x0006

/-- From `errors.h`. -/
def ERROR_STORAGE_DISK_FULL : Nat := 0x0203

/-- From `errors.h`. -/
def ERROR_HW_DEVICE_BUSY : Nat := 0x0304

/-- From `errors.h`. -/
def ERROR_NET_TIMEOUT : Nat := 0x0403

/-- From `errors.h`. -/
def ERROR_NET_HOST_UNREACHABLE : Nat := 0x0404

/-- From `errors.h`. -/
def ERROR_WORKFLOW_DEPENDENCY_FAILED : Nat := 0x0503

/-- `errors.c`, `error_is_transient`: the switch returns true exactly for
these six codes and false in the default branch. -/
def error_is_transient (error_code : Nat) : Bool :=
  decide (error_code = ERROR_TIMEOUT ∨ error_code = ERROR_RESOURCE_BUSY ∨
    error_code = ERROR_STORAGE_DISK_FULL ∨ error_code = ERROR_HW_DEVICE_BUSY ∨
    error_code = ERROR_NET_TIMEOUT ∨ error_code = ERROR_NET_HOST_UNREACHABLE)

/-- Modelled from the spec: `atomic_increment_u64` lives in `atomics.h`,
which is not under `src/`. Modelled as fetch-and-add returning the
previous value, so that with `registry.next_workflow_id = 1` workflow ids
start at 1 as both the spec and the comment in `workflow.c` state.
Returns (new counter value, value handed to the caller). -/
def atomic_increment_u64 (x : Nat) : Nat × Nat := (((x + 1) % U64), x)

/-- `workflow_rings.h`, struct RingEvent (payload arrays as lists of byte
values; the 512-byte payload array is a list expected to have length
`EVENT_PAYLOAD_SIZE`). -/
structure RingEvent where
  id : Nat
  workflow_id : Nat
  type : Nat
  timestamp : Nat
  route : List Nat
  payload : List Nat
  payload_size : Nat
deriving DecidableEq, Inhabited

/-- `workflow_rings.h`, struct RingResult. -/
structure RingResult where
  event_id : Nat
  workflow_id : Nat
  completion_time : Nat
  status : Nat
  error_code : Nat
  result_size : Nat
  result : List Nat
deriving DecidableEq, Inhabited

/-- `workflow_rings.h`, struct EventRing: head/tail are u64 cursors
(values < 2^64), slots a 256-entry array. -/
structure EventRing where
  head : Nat
  tail : Nat
  events : List RingEvent
deriving DecidableEq, Inhabited

/-- `workflow_rings.h`, struct ResultRing. -/
structure ResultRing where
  head : Nat
  tail : Nat
  results : List RingResult
deriving DecidableEq, Inhabited

/-- `workflow_rings.h`, `wf_event_ring_push`: reject when the u64
difference tail − head reaches EVENT_RING_SIZE, else store at
tail % EVENT_RING_SIZE and advance tail. Returns (ring, 1) on success,
(ring, 0) when full. -/
def wf_event_ring_push (ring : EventRing) (event : RingEvent) : EventRing × Nat :=
  let tail := ring.tail
  let head := ring.head
  if (tail + U64 - head) % U64 ≥ EVENT_RING_SIZE then (ring, 0)
  else
    let idx := tail % EVENT_RING_SIZE
    ({ ring with events := ring.events.set idx event, tail := (tail + 1) % U64 }, 1)

/-- `workflow_rings.h`, `wf_event_ring_pop`: NULL when head == tail, else
read slot head % EVENT_RING_SIZE and advance head. -/
def wf_event_ring_pop (ring : EventRing) : EventRing × Option RingEvent :=
  if ring.head = ring.tail then (ring, none)
  else
    let idx := ring.head % EVENT_RING_SIZE
    ({ ring with head := (ring.head + 1) % U64 }, some (ring.events.getD idx default))

/-- `workflow_rings.h`, `wf_event_ring_is_empty`. -/
def wf_event_ring_is_empty (ring : EventRing) : Bool := ring.head == ring.tail

/-- `workflow_rings.h`, `wf_result_ring_push`. -/
def wf_result_ring_push (ring : ResultRing) (result : RingResult) : ResultRing × Nat :=
  let tail := ring.tail
  let head := ring.head
  if (tail + U64 - head) % U64 ≥ RESULT_RING_SIZE then (ring, 0)
  else
    let idx := tail % RESULT_RING_SIZE
    ({ ring with results := ring.results.set idx result, tail := (tail + 1) % U64 }, 1)

/-- `workflow_rings.h`, `wf_result_ring_pop`. -/
def wf_result_ring_pop (ring : ResultRing) : ResultRing × Option RingResult :=
  if ring.head = ring.tail then (ring, none)
  else
    let idx := ring.head % RESULT_RING_SIZE
    ({ ring with head := (ring.head + 1) % U64 }, some (ring.results.getD idx default))

/-- Modelled from the spec: the `Event` struct (`events.h` is not under
`src/`); fields as used by `routing_table_add_event` in
`routing_table.c` (`id`, `user_id`, `timestamp`, `type`, `flags`,
`data[EVENT_DATA_SIZE]`). -/
structure Event where
  id : Nat
  user_id : Nat
  timestamp : Nat
  type : Nat
  flags : Nat
  data : List Nat
deriving DecidableEq, Inhabited

/-- Modelled from the spec: routing-entry status values (`routing_table.h`
not under `src/`); the spec lists Processing, Suspended, Completed,
Aborted. -/
inductive EventStatus where
  | PROCESSING
  | SUSPENDED
  | COMPLETED
  | ABORTED
deriving DecidableEq, Inhabited

/-- `routing_table.h` (via `routing_table.c` usage): a routing entry.
`deck_results` holds pointer values (0 = NULL). The `result_types` array
is not initialised by `routing_table_add_event` and is modelled separately
where the Execution deck consumes it. -/
structure RoutingEntry where
  event_id : Nat
  prefixes : List Nat
  current_index : Nat
  completion_flags : Nat
  state : EventStatus
  created_at : Nat
  abort_flag : Nat
  error_code : Nat
  deck_results : List Nat
  deck_timestamps : List Nat
  event_copy : Event
deriving DecidableEq, Inhabited

/-- Modelled from the spec: `routing_table_index` (header not under
`src/`); `bucket index is event_id mod N`, matching the
`ring_event->id % ROUTING_TABLE_SIZE` computation in
`routing_table_add_event`. -/
def routing_table_index (event_id : Nat) : Nat := event_id % ROUTING_TABLE_SIZE

/-- The routing table: ROUTING_TABLE_SIZE buckets of intrusive lists,
plus the atomic total_entries counter. -/
structure RoutingTable where
  buckets : List (List RoutingEntry)
  total_entries : Nat
deriving DecidableEq, Inhabited

/-- `routing_table_init`: zeroed table. -/
def routing_table_empty : RoutingTable :=
  { buckets := List.replicate ROUTING_TABLE_SIZE [], total_entries := 0 }

/-- `routing_table.c`, `routing_table_insert`: heap-allocate a copy of the
entry (allocation modelled as succeeding), push it at the head of bucket
`routing_table_index event_id`, bump the counters, return 1 (success).
The source returns 0 only when `kmalloc` fails. -/
def routing_table_insert (table : RoutingTable) (entry : RoutingEntry) :
    RoutingTable × Nat :=
  let index := routing_table_index entry.event_id
  let bucket := table.buckets.getD index []
  ({ buckets := table.buckets.set index (entry :: bucket),
     total_entries := table.total_entries + 1 }, 1)

/-- `routing_table.c`, `routing_table_add_event`, entry construction part:
builds a RoutingEntry from a RingEvent. The payload snapshot copies
min(payload_size, EVENT_DATA_SIZE) bytes and zero-fills the rest of the
224-byte `event_copy.data` array; no event id is assigned here. -/
def routing_entry_of_ring_event (ring_event : RingEvent) : RoutingEntry :=
  let copy_size := min ring_event.payload_size EVENT_DATA_SIZE
  { event_id := ring_event.id
    prefixes := ring_event.route
    current_index := 0
    completion_flags := 0
    state := EventStatus.PROCESSING
    created_at := ring_event.timestamp
    abort_flag := 0
    error_code := 0
    deck_results := List.replicate MAX_ROUTING_STEPS 0
    deck_timestamps := List.replicate MAX_ROUTING_STEPS 0
    event_copy :=
      { id := ring_event.id
        user_id := ring_event.workflow_id
        timestamp := ring_event.timestamp
        type := ring_event.type
        flags := 0
        data := ring_event.payload.take copy_size ++
          List.replicate (EVENT_DATA_SIZE - copy_size) 0 } }

/-- `routing_table.c`, `routing_table_add_event`: create the entry and
insert it; forwards `routing_table_insert`'s return value (1 = inserted,
0 = allocation failure) unchanged. -/
def routing_table_add_event (table : RoutingTable) (ring_event : RingEvent) :
    RoutingTable × Nat :=
  routing_table_insert table (routing_entry_of_ring_event ring_event)

/-- `workflow.h`, WorkflowState. -/
inductive WorkflowState where
  | REGISTERED
  | READY
  | RUNNING
  | WAITING
  | COMPLETED
  | ERROR
deriving DecidableEq, Inhabited

/-- `errors.h`, ErrorPolicy. -/
inductive ErrorPolicy where
  | ABORT
  | CONTINUE
  | RETRY
  | SKIP
deriving DecidableEq, Inhabited

/-- `errors.h`, RetryConfig (`enabled` and `exponential_backoff` are u8
flags, modelled as Bool; `max_retries` is u8). -/
structure RetryConfig where
  enabled : Bool
  max_retries : Nat
  base_delay_ms : Nat
  exponential_backoff : Bool
deriving DecidableEq, Inhabited

/-- `workflow.h`, WorkflowNode. The `dependencies` array with its
`dependency_count` is modelled as a list of that length; the u8
ready/completed/error flags as Bool; `result` is a pointer value. -/
structure WorkflowNode where
  type : Nat
  data : List Nat
  data_size : Nat
  dependencies : List Nat
  ready : Bool
  completed : Bool
  error : Bool
  retry_count : Nat
  last_error_code : Nat
  event_id : Nat
  result : Nat
  result_size : Nat
deriving DecidableEq, Inhabited

/-- `workflow.h`, ExecutionContext (the u32 counters the engine updates;
performance/result-aggregation fields the embedded code never reads are
omitted). -/
structure ExecutionContext where
  workflow_id : Nat
  activation_time : Nat
  total_events : Nat
  completed_events : Nat
  running_events : Nat
  error_count : Nat
  failed_event_index : Nat
deriving DecidableEq, Inhabited

/-- `workflow.h`, struct Workflow (name/owner/statistics fields that the
embedded operations never read are omitted; the registry linked list is
modelled by acting on the looked-up workflow directly). -/
structure Workflow where
  workflow_id : Nat
  route : List Nat
  event_count : Nat
  events : List WorkflowNode
  state : WorkflowState
  context : Option ExecutionContext
  error_policy : ErrorPolicy
  retry_config : RetryConfig
deriving DecidableEq, Inhabited

/-- Helper: in-place update of node `i` (C writes through
`&workflow->events[i]`). -/
def updateNode (w : Workflow) (i : Nat) (f : WorkflowNode → WorkflowNode) :
    Workflow :=
  { w with events := w.events.set i (f (w.events.getD i default)) }

/-- Helper: in-place update of the execution context (C writes through
`workflow->context`). -/
def updateCtx (w : Workflow) (f : ExecutionContext → ExecutionContext) :
    Workflow :=
  { w with context := w.context.map f }

/-- `workflow.c`, `workflow_dependencies_met`: false when the index is out
of range; true when every dependency index is in range and names a
completed, non-errored node (no dependencies: trivially met). -/
def workflow_dependencies_met (w : Workflow) (event_index : Nat) : Bool :=
  if event_index ≥ w.event_count then false
  else
    (w.events.getD event_index default).dependencies.all fun dep_idx =>
      decide (dep_idx < w.event_count) &&
      (w.events.getD dep_idx default).completed &&
      !(w.events.getD dep_idx default).error

/-- `workflow.c`, `workflow_is_complete`: counter-based test,
`completed_events >= total_events` (0 when there is no context). -/
def workflow_is_complete (w : Workflow) : Bool :=
  match w.context with
  | none => false
  | some c => c.completed_events ≥ c.total_events

/-- `workflow.c`, `workflow_submit_event`: build a RingEvent from node
`event_index` (id and timestamp left 0 "to be assigned by the kernel"),
hand it to `routing_table_add_event`, and — as written in the source —
treat a non-zero return as failure (`if (result != 0) return 0;`).
Otherwise return the id field of the local RingEvent copy, which
`routing_table_add_event` never wrote. Returns (table, event id). -/
def workflow_submit_event (table : RoutingTable) (w : Workflow)
    (event_index : Nat) : RoutingTable × Nat :=
  if event_index ≥ w.event_count then (table, 0)
  else
    let node := w.events.getD event_index default
    let copy_size := min node.data_size EVENT_PAYLOAD_SIZE
    let ring_event : RingEvent :=
      { id := 0
        workflow_id := w.workflow_id
        type := node.type
        timestamp := 0
        route := w.route
        payload := node.data.take copy_size ++
          List.replicate (EVENT_PAYLOAD_SIZE - copy_size) 0
        payload_size := copy_size }
    let out := routing_table_add_event table ring_event
    if out.2 ≠ 0 then (out.1, 0)
    else (out.1, ring_event.id)

/-- `workflow.c`, `workflow_process`, body of the scan loop for one index:
skip completed/errored nodes; when dependencies are met, mark ready and
submit; on a zero event id mark the node errored and count the error,
otherwise record the event id and count a running event. -/
def workflow_process_step (acc : RoutingTable × Workflow) (i : Nat) :
    RoutingTable × Workflow :=
  let table := acc.1
  let w := acc.2
  let node := w.events.getD i default
  if node.completed || node.error then (table, w)
  else if workflow_dependencies_met w i then
    let w := updateNode w i fun n => { n with ready := true }
    let out := workflow_submit_event table w i
    if out.2 = 0 then
      (out.1, updateCtx (updateNode w i fun n => { n with error := true })
        fun c => { c with error_count := (c.error_count + 1) % U32 })
    else
      (out.1, updateCtx (updateNode w i fun n => { n with event_id := out.2 })
        fun c => { c with running_events := (c.running_events + 1) % U32 })
  else (table, w)

/-- `workflow.c`, `workflow_process`: -1 without a context; 0 when the
state is neither Ready nor Running; otherwise set Running, run the scan
pass over all nodes, and move to Completed (returning 1) when
`workflow_is_complete` holds. -/
def workflow_process (table : RoutingTable) (w : Workflow) :
    RoutingTable × Workflow × Int :=
  match w.context with
  | none => (table, w, -1)
  | some _ =>
    if w.state ≠ WorkflowState.READY ∧ w.state ≠ WorkflowState.RUNNING then
      (table, w, 0)
    else
      let w1 := { w with state := WorkflowState.RUNNING }
      let out := (List.range w1.event_count).foldl workflow_process_step (table, w1)
      if workflow_is_complete out.2 then
        (out.1, { out.2 with state := WorkflowState.COMPLETED }, 1)
      else (out.1, out.2, 0)

/-- `workflow.c`, `workflow_activate` (the registry lookup by id is
modelled by acting on the workflow directly): reject a Running workflow
with -2; allocate a fresh context; reset every node's flags, event id and
result; copy optional parameters into node 0 (truncated to
EVENT_DATA_SIZE); set Ready and run `workflow_process`, mapping a
negative result to -3. -/
def workflow_activate (table : RoutingTable) (w : Workflow)
    (params : Option (List Nat)) (param_size : Nat) :
    RoutingTable × Workflow × Int :=
  if w.state = WorkflowState.RUNNING then (table, w, -2)
  else
    let ctx : ExecutionContext :=
      { workflow_id := w.workflow_id
        activation_time := 0
        total_events := w.event_count
        completed_events := 0
        running_events := 0
        error_count := 0
        failed_event_index := 0 }
    let w := { w with
      context := some ctx
      events := w.events.map fun (n : WorkflowNode) =>
        { n with ready := false, completed := false, error := false,
                 event_id := 0, result := 0 } }
    let w :=
      match params with
      | some p =>
        if param_size > 0 ∧ w.event_count > 0 then
          let copy_size := min param_size EVENT_DATA_SIZE
          updateNode w 0 fun n =>
            { n with data := p.take copy_size ++ n.data.drop copy_size,
                     data_size := copy_size }
        else w
      | none => w
    let w := { w with state := WorkflowState.READY }
    let out := workflow_process table w
    if out.2.2 < 0 then (out.1, out.2.1, -3)
    else (out.1, out.2.1, 0)

/-- `workflow.c`, `workflow_on_event_completed`, ERROR_POLICY_SKIP branch:
mark every not-yet-terminal node that depends on the failed index as
errored with ERROR_WORKFLOW_DEPENDENCY_FAILED. -/
def skip_dependents (w : Workflow) (event_index : Nat) : Workflow :=
  (List.range w.event_count).foldl
    (fun w i =>
      let node := w.events.getD i default
      if node.completed || node.error then w
      else if node.dependencies.contains event_index then
        updateNode w i fun n =>
          { n with error := true,
                   last_error_code := ERROR_WORKFLOW_DEPENDENCY_FAILED }
      else w)
    w

/-- `workflow.c`, `workflow_on_event_completed`, dependency-rescan loop
for one index: skip terminal or already-submitted (ready) nodes; submit a
node whose dependencies are now met, recording its event id or marking it
errored exactly as in `workflow_process_step`. -/
def workflow_rescan_step (acc : RoutingTable × Workflow) (i : Nat) :
    RoutingTable × Workflow :=
  let table := acc.1
  let w := acc.2
  let node := w.events.getD i default
  if node.completed || node.error then (table, w)
  else if node.ready then (table, w)
  else if workflow_dependencies_met w i then
    let w := updateNode w i fun n => { n with ready := true }
    let out := workflow_submit_event table w i
    if out.2 = 0 then
      (out.1, updateCtx (updateNode w i fun n => { n with error := true })
        fun c => { c with error_count := (c.error_count + 1) % U32 })
    else
      (out.1, updateCtx (updateNode w i fun n => { n with event_id := out.2 })
        fun c => { c with running_events := (c.running_events + 1) % U32 })
  else (table, w)

/-- `workflow.c`, `workflow_on_event_completed`, common tail after the
per-node bookkeeping: decrement `running_events` (u32, may wrap), rescan
for newly-enabled nodes, and move to Completed when
`workflow_is_complete` holds. -/
def workflow_completion_tail (table : RoutingTable) (w : Workflow) :
    RoutingTable × Workflow :=
  let w := updateCtx w fun c =>
    { c with running_events := (c.running_events + U32 - 1) % U32 }
  let out := (List.range w.event_count).foldl workflow_rescan_step (table, w)
  if workflow_is_complete out.2 then
    (out.1, { out.2 with state := WorkflowState.COMPLETED })
  else out

/-- `workflow.c`, `workflow_on_event_completed` (workflow lookup by id
modelled by acting on the workflow directly; the result argument is a
pointer value): locate the node by event id; on failure record the error
code, retry when `retry_config.enabled`, the error is transient and
`retry_count < max_retries` (incrementing the u8 retry counter and
resubmitting, with early return), otherwise mark the error and apply the
error policy; on success mark the node completed, transfer the result and
bump `completed_events`; then run the common completion tail. -/
def workflow_on_event_completed (table : RoutingTable) (w : Workflow)
    (event_id : Nat) (result : Nat) (result_size : Nat) (error_code : Nat) :
    RoutingTable × Workflow :=
  match w.context with
  | none => (table, w)
  | some _ =>
    match (List.range w.event_count).find?
        (fun i => (w.events.getD i default).event_id == event_id) with
    | none => (table, w)
    | some event_index =>
      let node := w.events.getD event_index default
      if error_code ≠ 0 then
        let w := updateNode w event_index fun n =>
          { n with last_error_code := error_code }
        let should_retry := w.retry_config.enabled &&
          error_is_transient error_code &&
          decide (node.retry_count < w.retry_config.max_retries)
        if should_retry then
          let w := updateNode w event_index fun n =>
            { n with retry_count := (n.retry_count + 1) % 256,
                     error := false, ready := true }
          let out := workflow_submit_event table w event_index
          if out.2 = 0 then
            (out.1, updateCtx
              (updateNode w event_index fun n => { n with error := true })
              fun c => { c with error_count := (c.error_count + 1) % U32,
                                failed_event_index := event_index })
          else
            (out.1, updateCtx
              (updateNode w event_index fun n => { n with event_id := out.2 })
              fun c => { c with
                running_events := (c.running_events + 1) % U32 })
        else
          let w := updateNode w event_index fun n => { n with error := true }
          let w := updateCtx w fun c =>
            { c with error_count := (c.error_count + 1) % U32,
                     failed_event_index := event_index }
          match w.error_policy with
          | ErrorPolicy.ABORT => (table, { w with state := WorkflowState.ERROR })
          | ErrorPolicy.SKIP =>
            workflow_completion_tail table (skip_dependents w event_index)
          | _ => workflow_completion_tail table w
      else
        let w := updateNode w event_index fun n =>
          { n with completed := true, result := result,
                   result_size := result_size }
        let w := updateCtx w fun c =>
          { c with completed_events := (c.completed_events + 1) % U32 }
        workflow_completion_tail table w

/-- `idt.c`, `syscall_handler`, NOTIFY_SUBMIT loop body for one popped
ring event: skip (continue) events whose workflow id does not match the
syscall argument or whose payload exceeds MAX_EVENT_PAYLOAD_SIZE; a type
above MAX_EVENT_TYPE only logs a warning ("continuing anyway"); assign
the next id from the global counter and a timestamp (time abstracted to
0), add to the routing table ignoring its return value, and count the
event as processed. State is (id counter, routing table, processed). -/
def kernel_notify_submit_step (workflow_id : Nat)
    (st : Nat × RoutingTable × Nat) (user_event : RingEvent) :
    Nat × RoutingTable × Nat :=
  let counter := st.1
  let table := st.2.1
  let processed := st.2.2
  if user_event.workflow_id ≠ workflow_id then st
  else if user_event.payload_size > MAX_EVENT_PAYLOAD_SIZE then st
  else
    let inc := atomic_increment_u64 counter
    let ev := { user_event with id := inc.2, timestamp := 0 }
    let out := routing_table_add_event table ev
    (inc.1, out.1, processed + 1)

/-- `idt.c`, `syscall_handler`, NOTIFY_SUBMIT mode: drain the caller's
event ring (the drained events, head to tail, given as a list) through
the per-event body; the syscall's return value is the final processed
count. -/
def kernel_notify_submit (counter : Nat) (table : RoutingTable)
    (pending : List RingEvent) (workflow_id : Nat) :
    Nat × RoutingTable × Nat :=
  pending.foldl (kernel_notify_submit_step workflow_id) (counter, table, 0)

/-- Modelled from the spec: the ResultType classifier (`deck_interface.h`
not under `src/`): None, Value, Static, Heap (RESULT_TYPE_KMALLOC in the
deck sources) and MemoryMapped, exactly the constants the decks and
`execution_deck.c` use. -/
inductive ResultType where
  | NONE
  | VALUE
  | STATIC
  | KMALLOC
  | MEMORY_MAPPED
deriving DecidableEq, Inhabited

/-- `execution_deck.c`, `process_completed_event` / `collect_results`:
the deck result handed to the workflow callback is the last non-NULL
`deck_results` slot, scanning from index MAX_ROUTING_STEPS−1 down
(0 when every slot is NULL). -/
def exec_find_transferred (deck_results : List Nat) : Nat :=
  match (List.range MAX_ROUTING_STEPS).reverse.find?
      (fun i => deck_results.getD i 0 != 0) with
  | some i => deck_results.getD i 0
  | none => 0

/-- `execution_deck.c`, `process_completed_event`, cleanup switch for one
slot: skip NULL results and RESULT_TYPE_NONE; skip the result transferred
to the workflow; `kfree` only RESULT_TYPE_KMALLOC; VALUE and STATIC need
no cleanup; MEMORY_MAPPED is left mapped (unmap not implemented). -/
def exec_cleanup_frees_slot (r : Nat) (t : ResultType) (result_copy : Nat) :
    Bool :=
  if r = 0 ∨ t = ResultType.NONE then false
  else if r = result_copy then false
  else
    match t with
    | ResultType.KMALLOC => true
    | _ => false

/-- `execution_deck.c`, `process_completed_event`, step 5: the slot
indices whose deck result gets released (`kfree`d) by the cleanup loop. -/
def exec_cleanup_freed (deck_results : List Nat) (result_types : List ResultType)
    (result_copy : Nat) : List Nat :=
  (List.range MAX_ROUTING_STEPS).filter fun i =>
    exec_cleanup_frees_slot (deck_results.getD i 0)
      (result_types.getD i ResultType.NONE) result_copy

/-- `operations_deck.c`, `crc32_init_table` inner loop: one shift-xor
round of the reflected polynomial 0xEDB88320 (all values stay below
2^32, matching uint32_t). -/
def crc32_round (crc : Nat) : Nat :=
  if crc % 2 = 1 then (crc / 2) ^^^ 0xEDB88320 else crc / 2

/-- `operations_deck.c`, `crc32_init_table`: eight rounds applied to the
table index. -/
def crc32_rounds : Nat → Nat → Nat
  | 0, crc => crc
  | n + 1, crc => crc32_rounds n (crc32_round crc)

/-- `operations_deck.c`: `crc32_table[i]`, computed per index. -/
def crc32_table_entry (i : Nat) : Nat := crc32_rounds 8 i

/-- `operations_deck.c`, `crc32_compute`: table-driven CRC32 with initial
value 0xFFFFFFFF and final complement (uint32 complement = xor with
0xFFFFFFFF). -/
def crc32_compute (data : List Nat) : Nat :=
  (data.foldl
    (fun crc byte => crc32_table_entry ((crc ^^^ byte) &&& 0xFF) ^^^ (crc >>> 8))
    0xFFFFFFFF) ^^^ 0xFFFFFFFF

/-- `operations_deck.c`, `djb2_hash`: hash = hash*33 + byte on uint64. -/
def djb2_hash (data : List Nat) : Nat :=
  data.foldl (fun hash c => ((hash <<< 5) + hash + c) % U64) 5381

/-- `operations_deck.c`, `rle_compress` inner run counter: number of
leading bytes of the list equal to `c`. The C loop counts
`1 + runLength current rest` for a run starting at `current`, capped at
255. -/
def runLength (c : Nat) : List Nat → Nat
  | [] => 0
  | b :: t => if b = c then runLength c t + 1 else 0

/-- `operations_deck.c`, `rle_compress` main loop: while input remains
and two output bytes fit the capacity, emit [byte][count] (count capped
at 255, stored as a u8) and skip the run. Arguments: capacity, remaining
input, current output position; returns the bytes written. -/
def rle_compress_go (output_capacity : Nat) :
    List Nat → Nat → List Nat
  | [], _ => []
  | c :: t, output_pos =>
    if output_pos + 2 ≤ output_capacity then
      let count := min (runLength c t + 1) 255
      c :: count % 256 ::
        rle_compress_go output_capacity (t.drop (count - 1)) (output_pos + 2)
    else []
termination_by l _ => l.length
decreasing_by
  simp only [List.length_drop, List.length_cons]
  omega

/-- `operations_deck.c`, `rle_compress`: empty input (or NULL pointers)
yields 0 bytes; otherwise run the main loop from output position 0. -/
def rle_compress (input : List Nat) (output_capacity : Nat) : List Nat :=
  if input.length = 0 then [] else rle_compress_go output_capacity input 0

/-- `operations_deck.c`, `rle_decompress` main loop: read [byte][count]
pairs (u8 reads), fail (return 0 = nothing written) when a run would
exceed the output capacity, else append `count` copies of the byte. -/
def rle_decompress_go (output_capacity : Nat) :
    List Nat → Nat → Option (List Nat)
  | b :: c :: rest, output_pos =>
    let count := c % 256
    if output_pos + count > output_capacity then none
    else
      match rle_decompress_go output_capacity rest (output_pos + count) with
      | none => none
      | some l => some (List.replicate count (b % 256) ++ l)
  | _, _ => some []

/-- `operations_deck.c`, `rle_decompress`: reject empty or odd-length
input (returning 0 bytes); a mid-loop capacity failure also returns 0
bytes. The result models (bytes written, as reported by the returned
output size). -/
def rle_decompress (input : List Nat) (output_capacity : Nat) : List Nat :=
  if input.length = 0 ∨ input.length % 2 ≠ 0 then []
  else
    match rle_decompress_go output_capacity input 0 with
    | none => []
    | some l => l

/-- Helper: the capacity-free core of `rle_compress_go` (what the loop
writes when the output buffer never runs out). -/
def rle_encode : List Nat → List Nat
  | [] => []
  | c :: t =>
    let count := min (runLength c t + 1) 255
    c :: count % 256 :: rle_encode (t.drop (count - 1))
termination_by l => l.length
decreasing_by
  simp only [List.length_drop, List.length_cons]
  omega

/-- Helper: the (completed_events, total_events) view of a workflow's
execution context, used to state what the scan passes leave unchanged. -/
def ctxPair (w : Workflow) : Option (Nat × Nat) :=
  w.context.map fun c => (c.completed_events, c.total_events)

/-- A blank workflow node (type 100 = EVENT_OP_HASH_CRC32, no payload,
no dependencies), used by the concrete scenarios below. -/
def node100 : WorkflowNode :=
  { type := 100, data := [], data_size := 0, dependencies := [],
    ready := false, completed := false, error := false, retry_count := 0,
    last_error_code := 0, event_id := 0, result := 0, result_size := 0 }

/-- A freshly registered two-node workflow (both nodes dependency-free,
route Operations → done), as `workflow_register` leaves it: state
Registered, no context, Continue policy, default retry config. -/
def wf2 : Workflow :=
  { workflow_id := 1, route := [1, 0, 0, 0, 0, 0, 0, 0], event_count := 2,
    events := [node100, node100], state := WorkflowState.REGISTERED,
    context := none, error_policy := ErrorPolicy.CONTINUE,
    retry_config := { enabled := true, max_retries := 3, base_delay_ms := 100,
                      exponential_backoff := true } }

/-- The system state after `workflow_activate` on `wf2` with no
parameters, starting from an empty routing table. -/
def wf2_activated : RoutingTable × Workflow × Int :=
  workflow_activate routing_table_empty wf2 none 0

/-- State after the Execution deck reports successful completion of one
of `wf2`'s in-flight events: both routing entries were inserted with
event id 0, so the callback is invoked with event id 0 and error code 0
(result pointer 77). -/
def wf2_completed_once : RoutingTable × Workflow :=
  workflow_on_event_completed wf2_activated.1 wf2_activated.2.1 0 77 8 0

/-- State after the second in-flight event (also id 0) completes
successfully (result pointer 88). -/
def wf2_completed_twice : RoutingTable × Workflow :=
  workflow_on_event_completed wf2_completed_once.1 wf2_completed_once.2 0 88 8 0

/-- A fresh execution context with no events. -/
def ctx0 : ExecutionContext :=
  { workflow_id := 3, activation_time := 0, total_events := 0,
    completed_events := 0, running_events := 0, error_count := 0,
    failed_event_index := 0 }

/-- An empty workflow (no nodes) with a fresh context in state Ready —
a minimal input on which `workflow_process` runs to completion. -/
def wf0_ready : Workflow :=
  { workflow_id := 3, route := [1, 0, 0, 0, 0, 0, 0, 0], event_count := 0,
    events := [], state := WorkflowState.READY,
    context := some ctx0,
    error_policy := ErrorPolicy.ABORT,
    retry_config := { enabled := true, max_retries := 3, base_delay_ms := 100,
                      exponential_backoff := true } }

/-- A running one-node workflow whose node is in flight under event id 7,
used to exercise the failure-retry path of the completion callback. -/
def wf_retry : Workflow :=
  { workflow_id := 2, route := [1, 0, 0, 0, 0, 0, 0, 0], event_count := 1,
    events := [{ node100 with ready := true, event_id := 7 }],
    state := WorkflowState.RUNNING,
    context := some { workflow_id := 2, activation_time := 0,
                      total_events := 1, completed_events := 0,
                      running_events := 1, error_count := 0,
                      failed_event_index := 0 },
    error_policy := ErrorPolicy.ABORT,
    retry_config := { enabled := true, max_retries := 3, base_delay_ms := 100,
                      exponential_backoff := true } }

/-- A Submit-mode ring event with a matching workflow id, empty payload,
and event type 300 — above MAX_EVENT_TYPE. -/
def ev_type300 : RingEvent :=
  { id := 0, workflow_id := 1, type := 300, timestamp := 0,
    route := [1, 0, 0, 0, 0, 0, 0, 0], payload := [], payload_size := 0 }

/-- Deck-result pointers for an entry whose step 0 produced a
memory-mapped result (pointer 5) and whose step 1 produced a heap result
(pointer 6); the remaining slots are NULL. -/
def results_mm : List Nat := [5, 6, 0, 0, 0, 0, 0, 0]

/-- The result-type tags matching `results_mm`. -/
def types_mm : List ResultType :=
  [ResultType.MEMORY_MAPPED, ResultType.KMALLOC, ResultType.NONE,
   ResultType.NONE, ResultType.NONE, ResultType.NONE, ResultType.NONE,
   ResultType.NONE]

/-- A ring event with a full 512-byte payload (bytes all 9) declaring
payload_size 300 — larger than the 224-byte snapshot. -/
def ev_payload300 : RingEvent :=
  { id := 0, workflow_id := 1, type := 100, timestamp := 0,
    route := [1, 0, 0, 0, 0, 0, 0, 0],
    payload := List.replicate EVENT_PAYLOAD_SIZE 9, payload_size := 300 }

/-- An empty event ring (cursors equal, 256 zeroed slots). -/
def ering0 : EventRing :=
  { head := 0, tail := 0, events := List.replicate EVENT_RING_SIZE default }

/-- An empty result ring. -/
def rring0 : ResultRing :=
  { head := 0, tail := 0, results := List.replicate RESULT_RING_SIZE default }

/-- A sample ring event for the push/pop round trip. -/
def ev_sample : RingEvent :=
  { id := 11, workflow_id := 1, type := 100, timestamp := 0,
    route := [1, 0, 0, 0, 0, 0, 0, 0], payload := [1, 2, 3],
    payload_size := 3 }

/-- A sample ring result for the push/pop round trip. -/
def res_sample : RingResult :=
  { event_id := 11, workflow_id := 1, completion_time := 0, status := 0,
    error_code := 0, result_size := 2, result := [4, 5] }

end EDKernel

namespace EDKernel

/-- Claim C1 (code bug): activating the registered two-node workflow
does submit both dependency-free nodes to the routing table (the two
inserts succeed: `total_entries` becomes 2, and `routing_table_insert`
can only return 1 here), yet — because `workflow_submit_event` treats
`routing_table_add_event`'s success value 1 as a failure and no id is
ever assigned to the local ring-event copy — both nodes end up marked
`error = 1` with `event_id = 0`, while `workflow_activate` still
returns 0. -/
theorem c1_insert_succeeds_but_nodes_marked_error :
    wf2_activated.2.2 = 0 ∧
    wf2_activated.1.total_entries = 2 ∧
    ((wf2_activated.2.1.events.getD 0 default).error = true ∧
     (wf2_activated.2.1.events.getD 0 default).event_id = 0) ∧
    ((wf2_activated.2.1.events.getD 1 default).error = true ∧
     (wf2_activated.2.1.events.getD 1 default).event_id = 0) := by
  decide

/-- Claim C2 (code bug): after activating the two-node workflow, the
routing table holds two in-flight entries and both carry event id 0 —
`routing_table_add_event` never assigns ids, and the workflow engine
submits every ring event with `id = 0` — so in-flight entries are not
unique. -/
theorem c2_workflow_entries_share_event_id_zero :
    wf2_activated.1.total_entries = 2 ∧
    ((wf2_activated.1.buckets.getD 0 []).map fun e => e.event_id) = [0, 0] := by
  decide

/-- Claim C3 counterexample: after activation every node of `wf2` is
terminal (error), yet the workflow state is neither Completed nor Error;
and after two successful completion callbacks for the in-flight id-0
events the workflow reaches Completed with completed_events = 2,
total_events = 2 and error_count = 2, so
completed_events ≠ total_events − error_events. -/
theorem c3_counterexample_terminal_vs_state :
    ((wf2_activated.2.1.events.all fun n => n.completed || n.error) = true ∧
     wf2_activated.2.1.state ≠ WorkflowState.COMPLETED ∧
     wf2_activated.2.1.state ≠ WorkflowState.ERROR) ∧
    (wf2_completed_twice.2.state = WorkflowState.COMPLETED ∧
     (wf2_completed_twice.2.context.map fun c =>
       (c.completed_events, c.total_events, c.error_count)) = some (2, 2, 2) ∧
     (wf2_completed_twice.2.context.map fun c =>
       decide (c.completed_events = c.total_events - c.error_count)) =
       some false) := by
  decide

/-- Claim C4 counterexample: a drained event whose type is 300 (above
MAX_EVENT_TYPE) but whose workflow id matches and whose payload size is
within bounds is inserted into the routing table and counted — the type
check in `syscall_handler` only logs a warning. -/
theorem c4_counterexample_type_check_is_warn_only :
    ev_type300.type > MAX_EVENT_TYPE ∧
    (kernel_notify_submit 0 routing_table_empty [ev_type300] 1).2.2 = 1 ∧
    (kernel_notify_submit 0 routing_table_empty [ev_type300] 1).2.1.total_entries = 1 ∧
    (((kernel_notify_submit 0 routing_table_empty [ev_type300] 1).2.1.buckets.getD 0 []).map
      fun e => e.event_copy.type) = [300] := by
  decide

/-- Claim C6 counterexample: for a routing entry whose slot 0 holds a
memory-mapped result (pointer 5) that is not the transferred result
(slot 1's pointer 6 is), the Execution deck's cleanup loop does not
release slot 0 — MEMORY_MAPPED results are left mapped. -/
theorem c6_counterexample_memory_mapped_not_released :
    exec_find_transferred results_mm = 6 ∧
    results_mm.getD 0 0 = 5 ∧
    types_mm.getD 0 ResultType.NONE = ResultType.MEMORY_MAPPED ∧
    results_mm.getD 0 0 ≠ exec_find_transferred results_mm ∧
    (0 : Nat) ∉ exec_cleanup_freed results_mm types_mm
      (exec_find_transferred results_mm) := by
  decide

/-- Claim C9 counterexample: the DJB2 hash of "abc" computed by the
Operations deck is 193485963 = 0x0B885C8B, which is smaller than
0x7C4A3FF6, so no prefix of its hexadecimal representation equals
0x7C4A3FF6. -/
theorem c9_counterexample_djb2_of_abc :
    ¬ ∃ k : Nat, djb2_hash [97, 98, 99] / 16 ^ k = 0x7C4A3FF6 := by
  rintro ⟨k, hk⟩
  have h1 : djb2_hash [97, 98, 99] = 193485963 := by decide
  have h2 : djb2_hash [97, 98, 99] / 16 ^ k ≤ djb2_hash [97, 98, 99] :=
    Nat.div_le_self _ _
  rw [h1] at hk h2
  omega

/-- Claim C9 (amended): on the 3-byte input "abc" the Operations deck's
CRC32 yields 0x352441C2 (as the spec states) and DJB2 yields
0x0B885C8B. -/
theorem c9_amended_hashes_of_abc :
    crc32_compute [97, 98, 99] = 0x352441C2 ∧
    djb2_hash [97, 98, 99] = 0x0B885C8B := by
  decide

end EDKernel

namespace EDKernel

theorem getD_set_self (l : List α) (i : Nat) (a d : α) (h : i < l.length) :
    (l.set i a).getD i d = a := by
  rw [List.getD_eq_getElem _ _ (by simpa using h)]
  simp [List.getElem_set, h]

theorem getD_replicate_self (n i : Nat) (a : α) :
    (List.replicate n a).getD i a = a := by
  rcases Nat.lt_or_ge i n with h | h
  · rw [List.getD_eq_getElem _ _ (by simpa using h)]
    simp
  · rw [List.getD_eq_default]
    simpa using h

theorem getD_take_of_lt (l : List α) (n i : Nat) (d : α) (h1 : i < n)
    (h2 : i < l.length) : (l.take n).getD i d = l.getD i d := by
  rw [List.getD_eq_getElem _ _ (by simp; omega),
      List.getD_eq_getElem _ _ h2]
  simp [List.getElem_take]

/-- `routing_table_add_event` always bumps `total_entries` by one (the
allocation is modelled as succeeding). -/
theorem routing_table_add_event_total (t : RoutingTable) (e : RingEvent) :
    (routing_table_add_event t e).1.total_entries = t.total_entries + 1 := rfl

theorem exec_cleanup_frees_slot_iff (r : Nat) (t : ResultType) (copy : Nat) :
    exec_cleanup_frees_slot r t copy = true ↔
      (r ≠ 0 ∧ r ≠ copy ∧ t = ResultType.KMALLOC) := by
  unfold exec_cleanup_frees_slot
  split
  · rename_i h
    rcases h with h | h <;> simp [h]
  · rename_i h
    push_neg at h
    split
    · rename_i hc
      simp [hc]
    · rename_i hc
      cases t <;> simp_all

/-- Claim C6 (amended): the Execution deck's cleanup releases slot `i`
exactly when it is in range, its deck result is non-NULL and distinct
from the result transferred to the workflow, and its tag is
RESULT_TYPE_KMALLOC; in particular None/Value/Static and MemoryMapped
results and the transferred result are never released. -/
theorem c6_amended_cleanup_frees_exactly_kmalloc
    (deck_results : List Nat) (result_types : List ResultType)
    (result_copy : Nat) (i : Nat) :
    i ∈ exec_cleanup_freed deck_results result_types result_copy ↔
      (i < MAX_ROUTING_STEPS ∧ deck_results.getD i 0 ≠ 0 ∧
       deck_results.getD i 0 ≠ result_copy ∧
       result_types.getD i ResultType.NONE = ResultType.KMALLOC) := by
  unfold exec_cleanup_freed
  rw [List.mem_filter, List.mem_range, exec_cleanup_frees_slot_iff]

theorem notify_submit_foldl (pending : List RingEvent) :
    ∀ (workflow_id counter p : Nat) (table : RoutingTable),
    (pending.foldl (kernel_notify_submit_step workflow_id) (counter, table, p)).2.2 =
      p + (pending.filter fun e => decide (e.workflow_id = workflow_id) &&
        decide (e.payload_size ≤ MAX_EVENT_PAYLOAD_SIZE)).length ∧
    (pending.foldl (kernel_notify_submit_step workflow_id) (counter, table, p)).2.1.total_entries =
      table.total_entries +
      (pending.filter fun e => decide (e.workflow_id = workflow_id) &&
        decide (e.payload_size ≤ MAX_EVENT_PAYLOAD_SIZE)).length := by
  induction pending with
  | nil => intro workflow_id counter p table; simp
  | cons e rest ih =>
    intro workflow_id counter p table
    by_cases h1 : e.workflow_id = workflow_id
    · by_cases h2 : e.payload_size > MAX_EVENT_PAYLOAD_SIZE
      · have hstep : kernel_notify_submit_step workflow_id (counter, table, p) e =
            (counter, table, p) := by
          simp [kernel_notify_submit_step, h1, h2]
        have hfil : (e.workflow_id == workflow_id) = true ∧
            ¬ (e.payload_size ≤ MAX_EVENT_PAYLOAD_SIZE) := by
          constructor
          · simpa using h1
          · omega
        simp only [List.foldl_cons, hstep, List.filter_cons]
        rw [if_neg (by simp [h1]; omega)]
        exact ih workflow_id counter p table
      · have hne : ¬ e.payload_size > MAX_EVENT_PAYLOAD_SIZE := h2
        have hstep : kernel_notify_submit_step workflow_id (counter, table, p) e =
            ((atomic_increment_u64 counter).1,
             (routing_table_add_event table
               { e with id := (atomic_increment_u64 counter).2, timestamp := 0 }).1,
             p + 1) := by
          simp [kernel_notify_submit_step, h1, h2]
        simp only [List.foldl_cons, hstep, List.filter_cons]
        rw [if_pos (by simp [h1]; omega)]
        obtain ⟨ha, hb⟩ := ih workflow_id (atomic_increment_u64 counter).1 (p + 1)
          (routing_table_add_event table
            { e with id := (atomic_increment_u64 counter).2, timestamp := 0 }).1
        refine ⟨by rw [ha]; simp; omega, ?_⟩
        rw [hb, routing_table_add_event_total]
        simp
        omega
    · have hstep : kernel_notify_submit_step workflow_id (counter, table, p) e =
          (counter, table, p) := by
        simp [kernel_notify_submit_step, h1]
      simp only [List.foldl_cons, hstep, List.filter_cons]
      rw [if_neg (by simp [h1])]
      exact ih workflow_id counter p table

/-- Claim C4 (amended): notify(Submit) accepts exactly the drained events
whose workflow id matches the syscall argument and whose payload size is
at most 512; it returns their number, and each of them lands in the
routing table (total_entries grows by exactly that number); the type
check does not reject anything. -/
theorem c4_amended_submit_filters_and_counts
    (pending : List RingEvent) (counter : Nat) (table : RoutingTable)
    (workflow_id : Nat) :
    (kernel_notify_submit counter table pending workflow_id).2.2 =
      (pending.filter fun e => decide (e.workflow_id = workflow_id) &&
        decide (e.payload_size ≤ MAX_EVENT_PAYLOAD_SIZE)).length ∧
    (kernel_notify_submit counter table pending workflow_id).2.1.total_entries =
      table.total_entries +
      (pending.filter fun e => decide (e.workflow_id = workflow_id) &&
        decide (e.payload_size ≤ MAX_EVENT_PAYLOAD_SIZE)).length := by
  have h := notify_submit_foldl pending workflow_id counter 0 table
  unfold kernel_notify_submit
  exact ⟨by rw [h.1]; omega, h.2⟩

end EDKernel

namespace EDKernel

/-- Claim C10: the routing entry's owned payload snapshot
(`event_copy.data`) is always exactly EVENT_DATA_SIZE = 224 bytes: byte
`i` equals byte `i` of the submitted payload when
`i < min payload_size 224` and 0 otherwise — so when `payload_size`
exceeds 224, the excess bytes are dropped and the rest is zero-filled —
even though the ring-event payload (and the Submit validation limit) is
EVENT_PAYLOAD_SIZE = 512 bytes. -/
theorem c10_payload_snapshot_truncated_to_224 (ev : RingEvent)
    (hlen : ev.payload.length = EVENT_PAYLOAD_SIZE) :
    (routing_entry_of_ring_event ev).event_copy.data.length = EVENT_DATA_SIZE ∧
    (∀ i : Nat, i < EVENT_DATA_SIZE →
      (routing_entry_of_ring_event ev).event_copy.data.getD i 0 =
        if i < min ev.payload_size EVENT_DATA_SIZE then ev.payload.getD i 0
        else 0) ∧
    EVENT_DATA_SIZE < EVENT_PAYLOAD_SIZE := by
  have hdata : (routing_entry_of_ring_event ev).event_copy.data =
      ev.payload.take (min ev.payload_size EVENT_DATA_SIZE) ++
        List.replicate (EVENT_DATA_SIZE - min ev.payload_size EVENT_DATA_SIZE) 0 := rfl
  have hcs : min ev.payload_size EVENT_DATA_SIZE ≤ EVENT_DATA_SIZE :=
    Nat.min_le_right _ _
  have hlt : EVENT_DATA_SIZE < EVENT_PAYLOAD_SIZE := by decide
  have htake : (ev.payload.take (min ev.payload_size EVENT_DATA_SIZE)).length =
      min ev.payload_size EVENT_DATA_SIZE := by
    rw [List.length_take, hlen]
    unfold EVENT_DATA_SIZE EVENT_PAYLOAD_SIZE at *
    omega
  refine ⟨?_, ?_, hlt⟩
  · rw [hdata, List.length_append, htake, List.length_replicate]
    omega
  · intro i hi
    rw [hdata]
    by_cases hin : i < min ev.payload_size EVENT_DATA_SIZE
    · rw [if_pos hin, List.getD_append _ _ _ _ (by rw [htake]; exact hin)]
      exact getD_take_of_lt _ _ _ _ hin (by
        rw [hlen]
        unfold EVENT_DATA_SIZE EVENT_PAYLOAD_SIZE at *
        omega)
    · rw [if_neg hin, List.getD_append_right _ _ _ _ (by rw [htake]; omega)]
      exact getD_replicate_self _ _ _

/-- Witness for C10 at a concrete input: a 512-byte payload of 9s with
payload_size 300 — byte 100 of the snapshot is kept (9), byte 250 is
cut off and zero-filled. -/
theorem c10_payload_snapshot_truncated_to_224_witness :
    ev_payload300.payload.length = EVENT_PAYLOAD_SIZE ∧
    ((routing_entry_of_ring_event ev_payload300).event_copy.data.getD 100 0 =
      if (100 : Nat) < min ev_payload300.payload_size EVENT_DATA_SIZE
      then ev_payload300.payload.getD 100 0 else 0) ∧
    ((routing_entry_of_ring_event ev_payload300).event_copy.data.getD 230 0 =
      if (230 : Nat) < min ev_payload300.payload_size EVENT_DATA_SIZE
      then ev_payload300.payload.getD 230 0 else 0) := by
  have hl : ev_payload300.payload.length = EVENT_PAYLOAD_SIZE := by
    simp [ev_payload300]
  refine ⟨hl, ?_, ?_⟩
  · exact (c10_payload_snapshot_truncated_to_224 ev_payload300 hl).2.1 100
      (by decide)
  · have h := (c10_payload_snapshot_truncated_to_224 ev_payload300 hl).1
    rw [List.getD_eq_default _ _ (by rw [h]; decide), if_neg (by decide)]

end EDKernel

namespace EDKernel


theorem ring_diff_mod (head tail : Nat) (h1 : head ≤ tail) (h2 : tail < U64) :
    (tail + U64 - head) % U64 = tail - head := by
  have hU : U64 = 18446744073709551616 := rfl
  rw [hU] at h2 ⊢
  omega

theorem event_ring_push_fails_iff (er : EventRing) (E : RingEvent)
    (he1 : er.head ≤ er.tail) (he2 : er.tail - er.head ≤ EVENT_RING_SIZE)
    (he3 : er.tail < U64) :
    (wf_event_ring_push er E).2 = 0 ↔ er.tail - er.head = EVENT_RING_SIZE := by
  have hemod := ring_diff_mod er.head er.tail he1 he3
  simp only [wf_event_ring_push, hemod]
  split
  · rename_i h
    simp only [ge_iff_le] at h
    have : er.tail - er.head = EVENT_RING_SIZE := by omega
    simp [this]
  · rename_i h
    simp only [ge_iff_le, not_le] at h
    constructor
    · intro hc
      exact absurd hc one_ne_zero
    · intro hc
      omega

theorem event_ring_pop_fails_iff (er : EventRing) :
    (wf_event_ring_pop er).2 = none ↔ er.head = er.tail := by
  simp only [wf_event_ring_pop]
  split
  · rename_i h
    simp [h]
  · rename_i h
    simp [h]

theorem event_ring_push_pop_roundtrip (er : EventRing) (E : RingEvent)
    (he3 : er.tail < U64) (he4 : er.events.length = EVENT_RING_SIZE)
    (hempty : er.head = er.tail) :
    (wf_event_ring_push er E).2 = 1 ∧
    (wf_event_ring_pop (wf_event_ring_push er E).1).2 = some E ∧
    (wf_event_ring_pop (wf_event_ring_push er E).1).1.head =
      (wf_event_ring_pop (wf_event_ring_push er E).1).1.tail := by
  have hU : U64 = 18446744073709551616 := rfl
  have hemod := ring_diff_mod er.head er.tail (le_of_eq hempty) he3
  have hcond : ¬ ((er.tail + U64 - er.head) % U64 ≥ EVENT_RING_SIZE) := by
    rw [hemod, ← hempty]
    simp only [Nat.sub_self, ge_iff_le, Nat.le_zero]
    decide
  have hpush : wf_event_ring_push er E =
      ({ er with events := er.events.set (er.tail % EVENT_RING_SIZE) E,
                 tail := (er.tail + 1) % U64 }, 1) := by
    simp only [wf_event_ring_push]
    rw [if_neg hcond]
  have h3 : er.head < 18446744073709551616 := by
    rw [hempty]
    exact he3
  have hne : er.head ≠ (er.tail + 1) % U64 := by
    rw [← hempty, hU]
    omega
  refine ⟨by rw [hpush], ?_, ?_⟩
  · rw [hpush]
    simp only [wf_event_ring_pop]
    rw [if_neg hne]
    simp only [Option.some.injEq]
    rw [hempty]
    exact getD_set_self _ _ _ _ (by rw [he4]; exact Nat.mod_lt _ (by decide))
  · rw [hpush]
    simp only [wf_event_ring_pop]
    rw [if_neg hne]
    simp only []
    rw [hempty]

theorem result_ring_push_fails_iff (rr : ResultRing) (R : RingResult)
    (hr1 : rr.head ≤ rr.tail) (hr2 : rr.tail - rr.head ≤ RESULT_RING_SIZE)
    (hr3 : rr.tail < U64) :
    (wf_result_ring_push rr R).2 = 0 ↔ rr.tail - rr.head = RESULT_RING_SIZE := by
  have hrmod := ring_diff_mod rr.head rr.tail hr1 hr3
  simp only [wf_result_ring_push, hrmod]
  split
  · rename_i h
    simp only [ge_iff_le] at h
    have : rr.tail - rr.head = RESULT_RING_SIZE := by omega
    simp [this]
  · rename_i h
    simp only [ge_iff_le, not_le] at h
    constructor
    · intro hc
      exact absurd hc one_ne_zero
    · intro hc
      omega

theorem result_ring_pop_fails_iff (rr : ResultRing) :
    (wf_result_ring_pop rr).2 = none ↔ rr.head = rr.tail := by
  simp only [wf_result_ring_pop]
  split
  · rename_i h
    simp [h]
  · rename_i h
    simp [h]

theorem result_ring_push_pop_roundtrip (rr : ResultRing) (R : RingResult)
    (hr3 : rr.tail < U64) (hr4 : rr.results.length = RESULT_RING_SIZE)
    (hempty : rr.head = rr.tail) :
    (wf_result_ring_push rr R).2 = 1 ∧
    (wf_result_ring_pop (wf_result_ring_push rr R).1).2 = some R ∧
    (wf_result_ring_pop (wf_result_ring_push rr R).1).1.head =
      (wf_result_ring_pop (wf_result_ring_push rr R).1).1.tail := by
  have hU : U64 = 18446744073709551616 := rfl
  have hrmod := ring_diff_mod rr.head rr.tail (le_of_eq hempty) hr3
  have hcond : ¬ ((rr.tail + U64 - rr.head) % U64 ≥ RESULT_RING_SIZE) := by
    rw [hrmod, ← hempty]
    simp only [Nat.sub_self, ge_iff_le, Nat.le_zero]
    decide
  have hpush : wf_result_ring_push rr R =
      ({ rr with results := rr.results.set (rr.tail % RESULT_RING_SIZE) R,
                 tail := (rr.tail + 1) % U64 }, 1) := by
    simp only [wf_result_ring_push]
    rw [if_neg hcond]
  have h3 : rr.head < 18446744073709551616 := by
    rw [hempty]
    exact hr3
  have hne : rr.head ≠ (rr.tail + 1) % U64 := by
    rw [← hempty, hU]
    omega
  refine ⟨by rw [hpush], ?_, ?_⟩
  · rw [hpush]
    simp only [wf_result_ring_pop]
    rw [if_neg hne]
    simp only [Option.some.injEq]
    rw [hempty]
    exact getD_set_self _ _ _ _ (by rw [hr4]; exact Nat.mod_lt _ (by decide))
  · rw [hpush]
    simp only [wf_result_ring_pop]
    rw [if_neg hne]
    simp only []
    rw [hempty]

/-- Claim C5: for both SPSC rings (capacity 256) in a well-formed state
(head ≤ tail, at most capacity elements, u64 cursors, 256 slots): a push
fails exactly when tail − head equals the capacity; a pop fails exactly
when head = tail; and pushing E into an empty ring followed by a pop
returns exactly E with the cursors equal again. -/
theorem c5_spsc_rings_push_pop (er : EventRing) (rr : ResultRing)
    (E : RingEvent) (R : RingResult)
    (he1 : er.head ≤ er.tail) (he2 : er.tail - er.head ≤ EVENT_RING_SIZE)
    (he3 : er.tail < U64) (he4 : er.events.length = EVENT_RING_SIZE)
    (hr1 : rr.head ≤ rr.tail) (hr2 : rr.tail - rr.head ≤ RESULT_RING_SIZE)
    (hr3 : rr.tail < U64) (hr4 : rr.results.length = RESULT_RING_SIZE) :
    (((wf_event_ring_push er E).2 = 0 ↔ er.tail - er.head = EVENT_RING_SIZE) ∧
     ((wf_event_ring_pop er).2 = none ↔ er.head = er.tail) ∧
     (er.head = er.tail →
       (wf_event_ring_push er E).2 = 1 ∧
       (wf_event_ring_pop (wf_event_ring_push er E).1).2 = some E ∧
       (wf_event_ring_pop (wf_event_ring_push er E).1).1.head =
         (wf_event_ring_pop (wf_event_ring_push er E).1).1.tail)) ∧
    (((wf_result_ring_push rr R).2 = 0 ↔ rr.tail - rr.head = RESULT_RING_SIZE) ∧
     ((wf_result_ring_pop rr).2 = none ↔ rr.head = rr.tail) ∧
     (rr.head = rr.tail →
       (wf_result_ring_push rr R).2 = 1 ∧
       (wf_result_ring_pop (wf_result_ring_push rr R).1).2 = some R ∧
       (wf_result_ring_pop (wf_result_ring_push rr R).1).1.head =
         (wf_result_ring_pop (wf_result_ring_push rr R).1).1.tail)) :=
  ⟨⟨event_ring_push_fails_iff er E he1 he2 he3,
    event_ring_pop_fails_iff er,
    fun hempty => event_ring_push_pop_roundtrip er E he3 he4 hempty⟩,
   ⟨result_ring_push_fails_iff rr R hr1 hr2 hr3,
    result_ring_pop_fails_iff rr,
    fun hempty => result_ring_push_pop_roundtrip rr R hr3 hr4 hempty⟩⟩

/-- Witness for C5 on concrete empty rings: pushing the sample event and
result into the zero-initialised rings and popping returns them, and the
failure conditions evaluate as stated. -/
theorem c5_spsc_rings_push_pop_witness :
    ering0.head ≤ ering0.tail ∧ ering0.events.length = EVENT_RING_SIZE ∧
    ((wf_event_ring_pop (wf_event_ring_push ering0 ev_sample).1).2 =
      some ev_sample) ∧
    ((wf_result_ring_pop (wf_result_ring_push rring0 res_sample).1).2 =
      some res_sample) := by
  have h := c5_spsc_rings_push_pop ering0 rring0 ev_sample res_sample
    (by decide) (by decide) (by decide)
    (by simp [ering0]) (by decide) (by decide) (by decide)
    (by simp [rring0])
  exact ⟨by decide, by simp [ering0], (h.1.2.2 rfl).2.1, (h.2.2.2 rfl).2.1⟩

end EDKernel

namespace EDKernel

theorem workflow_process_step_state (acc : RoutingTable × Workflow) (i : Nat) :
    (workflow_process_step acc i).2.state = acc.2.state := by
  obtain ⟨table, w⟩ := acc
  simp only [workflow_process_step]
  split
  · rfl
  · split
    · split
      · rfl
      · rfl
    · rfl

theorem updateCtx_pair (w : Workflow) (f : ExecutionContext → ExecutionContext)
    (hf : ∀ c, ((f c).completed_events, (f c).total_events) =
      (c.completed_events, c.total_events)) :
    ctxPair (updateCtx w f) = ctxPair w := by
  unfold ctxPair updateCtx
  cases h : w.context with
  | none => simp
  | some c => simp [hf c]

theorem workflow_process_step_pair (acc : RoutingTable × Workflow) (i : Nat) :
    ctxPair (workflow_process_step acc i).2 = ctxPair acc.2 := by
  obtain ⟨table, w⟩ := acc
  simp only [workflow_process_step]
  split
  · rfl
  · split
    · split
      · exact updateCtx_pair _ _ fun c => rfl
      · exact updateCtx_pair _ _ fun c => rfl
    · rfl

theorem foldl_process_step_preserves (l : List Nat) :
    ∀ acc : RoutingTable × Workflow,
    (l.foldl workflow_process_step acc).2.state = acc.2.state ∧
    ctxPair (l.foldl workflow_process_step acc).2 = ctxPair acc.2 := by
  induction l with
  | nil => intro acc; exact ⟨rfl, rfl⟩
  | cons x xs ih =>
    intro acc
    obtain ⟨h1, h2⟩ := ih (workflow_process_step acc x)
    rw [List.foldl_cons]
    exact ⟨h1.trans (workflow_process_step_state acc x),
           h2.trans (workflow_process_step_pair acc x)⟩

/-- Claim C3 (amended): the engine's completion decision is counter-based.
`workflow_process`, on a Ready/Running workflow with a context, moves it
to state Completed exactly when `completed_events ≥ total_events` holds
of the context (the scan pass never changes these two counters); the
per-node completed/error flags play no part in the decision. -/
theorem c3_amended_completion_is_counter_based (table : RoutingTable)
    (w : Workflow) (ctx : ExecutionContext) (hctx : w.context = some ctx)
    (hstate : w.state = WorkflowState.READY ∨ w.state = WorkflowState.RUNNING) :
    ((workflow_process table w).2.1.state = WorkflowState.COMPLETED ↔
      ctx.completed_events ≥ ctx.total_events) := by
  have hc : ¬ (w.state ≠ WorkflowState.READY ∧ w.state ≠ WorkflowState.RUNNING) := by
    rcases hstate with h | h <;> simp [h]
  obtain ⟨hs, hp⟩ := foldl_process_step_preserves (List.range w.event_count)
    (table, { w with state := WorkflowState.RUNNING, context := some ctx })
  have hp2 : ctxPair (((List.range w.event_count).foldl workflow_process_step
      (table, { w with state := WorkflowState.RUNNING, context := some ctx })).2) =
      some (ctx.completed_events, ctx.total_events) := by
    rw [hp]
    simp [ctxPair]
  obtain ⟨c2, hc2, hpair⟩ := Option.map_eq_some'.mp hp2
  have hcc : c2.completed_events = ctx.completed_events ∧
      c2.total_events = ctx.total_events := by
    have h := hpair
    simp only [Prod.mk.injEq] at h
    exact h
  have hic : workflow_is_complete (((List.range w.event_count).foldl
      workflow_process_step
      (table, { w with state := WorkflowState.RUNNING, context := some ctx })).2) =
      decide (ctx.completed_events ≥ ctx.total_events) := by
    unfold workflow_is_complete
    rw [hc2]
    simp [hcc.1, hcc.2]
  unfold workflow_process
  rw [hctx]
  simp only []
  rw [if_neg hc]
  split
  · rename_i h
    rw [hic] at h
    simp only [decide_eq_true_eq] at h
    simpa using h
  · rename_i h
    rw [hic] at h
    simp only [decide_eq_true_eq] at h
    constructor
    · intro hcon
      rw [hs] at hcon
      exact WorkflowState.noConfusion hcon
    · intro hcon
      exact absurd hcon h

/-- Witness for the amended C3 on the empty Ready workflow: its context
has completed_events = total_events = 0, and `workflow_process` indeed
moves it to Completed. -/
theorem c3_amended_completion_witness :
    wf0_ready.context = some ctx0 ∧
    ((workflow_process routing_table_empty wf0_ready).2.1.state =
        WorkflowState.COMPLETED ↔
      ctx0.completed_events ≥ ctx0.total_events) :=
  ⟨rfl, c3_amended_completion_is_counter_based routing_table_empty wf0_ready
    ctx0 rfl (Or.inl rfl)⟩

end EDKernel

namespace EDKernel

theorem updateNode_retry_config (w : Workflow) (i : Nat)
    (f : WorkflowNode → WorkflowNode) :
    (updateNode w i f).retry_config = w.retry_config := rfl

theorem updateNode_event_count (w : Workflow) (i : Nat)
    (f : WorkflowNode → WorkflowNode) :
    (updateNode w i f).event_count = w.event_count := rfl

theorem updateNode_events_length (w : Workflow) (i : Nat)
    (f : WorkflowNode → WorkflowNode) :
    (updateNode w i f).events.length = w.events.length := by
  simp [updateNode]

theorem updateCtx_events (w : Workflow) (f : ExecutionContext → ExecutionContext) :
    (updateCtx w f).events = w.events := rfl

theorem updateNode_getD_self (w : Workflow) (i : Nat)
    (f : WorkflowNode → WorkflowNode) (h : i < w.events.length) :
    (updateNode w i f).events.getD i default = f (w.events.getD i default) := by
  unfold updateNode
  exact getD_set_self _ _ _ _ h

theorem getD_set_preserves {α : Type} [Inhabited α] (l : List α) (j k : Nat)
    (a : α) (proj : α → Nat) (hproj : proj a = proj (l.getD j default)) :
    proj ((l.set j a).getD k default) = proj (l.getD k default) := by
  by_cases hk : k = j
  · subst hk
    by_cases hj : k < l.length
    · rw [getD_set_self _ _ _ _ hj, hproj]
    · rw [List.getD_eq_default _ _ (by simp only [List.length_set]; omega),
          List.getD_eq_default _ _ (by omega)]
  · rw [List.getD_eq_getD_get?, List.getD_eq_getD_get?, List.get?_set_ne _ _ (by omega)]

theorem updateNode_retry_preserved (w : Workflow) (j k : Nat)
    (f : WorkflowNode → WorkflowNode)
    (hf : ∀ n, (f n).retry_count = n.retry_count) :
    ((updateNode w j f).events.getD k default).retry_count =
      ((w.events.getD k default)).retry_count := by
  unfold updateNode
  exact getD_set_preserves _ _ _ _ (fun n : WorkflowNode => n.retry_count) (hf _)

theorem workflow_rescan_step_retry (acc : RoutingTable × Workflow) (i k : Nat) :
    (((workflow_rescan_step acc i).2).events.getD k default).retry_count =
      ((acc.2.events.getD k default)).retry_count := by
  obtain ⟨t, w⟩ := acc
  simp only [workflow_rescan_step]
  split
  · rfl
  · split
    · rfl
    · split
      · split
        · dsimp only
          rw [updateCtx_events]
          refine (updateNode_retry_preserved _ _ _ _ ?_).trans
            (updateNode_retry_preserved _ _ _ _ ?_) <;> intro n <;> rfl
        · dsimp only
          rw [updateCtx_events]
          refine (updateNode_retry_preserved _ _ _ _ ?_).trans
            (updateNode_retry_preserved _ _ _ _ ?_) <;> intro n <;> rfl
      · rfl

theorem foldl_rescan_retry (l : List Nat) :
    ∀ (acc : RoutingTable × Workflow) (k : Nat),
    (((l.foldl workflow_rescan_step acc).2).events.getD k default).retry_count =
      ((acc.2.events.getD k default)).retry_count := by
  induction l with
  | nil => intro acc k; rfl
  | cons x xs ih =>
    intro acc k
    rw [List.foldl_cons]
    rw [ih (workflow_rescan_step acc x) k]
    exact workflow_rescan_step_retry acc x k

theorem skip_dependents_retry (w : Workflow) (ei k : Nat) :
    (((skip_dependents w ei).events.getD k default)).retry_count =
      ((w.events.getD k default)).retry_count := by
  unfold skip_dependents
  generalize List.range w.event_count = l
  induction l generalizing w with
  | nil => rfl
  | cons x xs ih =>
    rw [List.foldl_cons]
    rw [ih]
    simp only []
    split
    · rfl
    · split
      · refine updateNode_retry_preserved _ _ _ _ ?_
        intro n
        rfl
      · rfl

theorem workflow_completion_tail_retry (table : RoutingTable) (w : Workflow)
    (k : Nat) :
    (((workflow_completion_tail table w).2).events.getD k default).retry_count =
      ((w.events.getD k default)).retry_count := by
  unfold workflow_completion_tail
  simp only []
  split
  · dsimp only
    rw [foldl_rescan_retry]
    simp only [updateCtx_events]
  · rw [foldl_rescan_retry]
    simp only [updateCtx_events]

theorem mod256_succ_ne (rc : Nat) : (rc + 1) % 256 ≠ rc := by omega

/-- `workflow_submit_event` on an in-range node: the returned event id is
0 (the source takes the `result != 0` branch because the insert returned
1, and the local ring-event id was never written), yet the event did get
inserted: the table gains exactly one entry. -/
theorem workflow_submit_event_spec (table : RoutingTable) (w : Workflow)
    (i : Nat) (h : i < w.event_count) :
    (workflow_submit_event table w i).2 = 0 ∧
    (workflow_submit_event table w i).1.total_entries =
      table.total_entries + 1 := by
  simp only [workflow_submit_event, routing_table_add_event, routing_table_insert]
  rw [if_neg (by omega)]
  simp

end EDKernel

namespace EDKernel

/-- Claim C7: when an in-flight event of a workflow fails (non-zero error
code, node located by event id), the engine re-submits the failed node —
incrementing its u8 retry counter and adding exactly one fresh event to
the routing table — if and only if `retry_config.enabled` holds, the
error code is transient, and the node's retry_count is below
max_retries; and the transient codes are exactly timeout, resource-busy,
storage disk-full, hardware device-busy, network timeout and network
host-unreachable. -/
theorem c7_retry_iff_enabled_transient_below_max (table : RoutingTable)
    (w : Workflow) (event_id result result_size error_code event_index : Nat)
    (ctx : ExecutionContext) (hctx : w.context = some ctx)
    (hfind : (List.range w.event_count).find?
      (fun i => (w.events.getD i default).event_id == event_id) = some event_index)
    (hlen : event_index < w.events.length)
    (hcode : error_code ≠ 0) :
    (∀ c : Nat, error_is_transient c = true ↔
      (c = ERROR_TIMEOUT ∨ c = ERROR_RESOURCE_BUSY ∨
       c = ERROR_STORAGE_DISK_FULL ∨ c = ERROR_HW_DEVICE_BUSY ∨
       c = ERROR_NET_TIMEOUT ∨ c = ERROR_NET_HOST_UNREACHABLE)) ∧
    ((((workflow_on_event_completed table w event_id result result_size
          error_code).2.events.getD event_index default).retry_count =
        ((w.events.getD event_index default).retry_count + 1) % 256 ∧
      (workflow_on_event_completed table w event_id result result_size
          error_code).1.total_entries = table.total_entries + 1) ↔
      (w.retry_config.enabled = true ∧ error_is_transient error_code = true ∧
       (w.events.getD event_index default).retry_count <
         w.retry_config.max_retries)) := by
  constructor
  · intro c
    simp [error_is_transient]
  · have hlt : event_index < w.event_count :=
      List.mem_range.mp (List.mem_of_find?_eq_some hfind)
    unfold workflow_on_event_completed
    rw [hctx]
    simp only []
    rw [hfind]
    simp only []
    rw [if_pos hcode]
    split
    · rename_i hsr
      rw [updateNode_retry_config] at hsr
      simp only [Bool.and_eq_true, decide_eq_true_eq] at hsr
      have hsub := workflow_submit_event_spec table
        (updateNode (updateNode w event_index fun n =>
            { n with last_error_code := error_code }) event_index fun n =>
          { n with retry_count := (n.retry_count + 1) % 256,
                   error := false, ready := true })
        event_index
        (by rw [updateNode_event_count, updateNode_event_count]; exact hlt)
      rw [if_pos hsub.1]
      refine iff_of_true ⟨?_, ?_⟩ ⟨hsr.1.1, hsr.1.2, hsr.2⟩
      · dsimp only
        rw [updateCtx_events]
        rw [updateNode_retry_preserved]
        rw [updateNode_getD_self]
        dsimp only
        rw [updateNode_retry_preserved]
        all_goals first
          | rfl
          | (intro n; rfl)
          | (rw [updateNode_events_length]; exact hlen)
      · dsimp only
        exact hsub.2
    · rename_i hsr
      rw [updateNode_retry_config] at hsr
      simp only [Bool.and_eq_true, decide_eq_true_eq, not_and] at hsr
      have hrhs : ¬ (w.retry_config.enabled = true ∧
          error_is_transient error_code = true ∧
          (w.events.getD event_index default).retry_count <
            w.retry_config.max_retries) := by
        intro hx
        exact hsr ⟨hx.1, hx.2.1⟩ hx.2.2
      split
      · -- Abort policy: early return, node untouched beyond error flags
        refine iff_of_false ?_ hrhs
        rintro ⟨hA, hB⟩
        dsimp only at hA
        rw [updateCtx_events, updateNode_retry_preserved,
            updateNode_retry_preserved] at hA
        exact mod256_succ_ne _ hA.symm
        all_goals (intro n; rfl)
      · -- Skip policy: dependents marked, then the common completion tail
        refine iff_of_false ?_ hrhs
        rintro ⟨hA, hB⟩
        rw [workflow_completion_tail_retry, skip_dependents_retry,
            updateCtx_events, updateNode_retry_preserved,
            updateNode_retry_preserved] at hA
        exact mod256_succ_ne _ hA.symm
        all_goals (intro n; rfl)
      · -- Continue / Retry-policy fallthrough: the common completion tail
        refine iff_of_false ?_ hrhs
        rintro ⟨hA, hB⟩
        rw [workflow_completion_tail_retry, updateCtx_events,
            updateNode_retry_preserved, updateNode_retry_preserved] at hA
        exact mod256_succ_ne _ hA.symm
        all_goals (intro n; rfl)

end EDKernel

namespace EDKernel

/-- Witness for C7 at a concrete input: the running one-node workflow
with event id 7, retry enabled (max 3, count 0), failed with
ERROR_TIMEOUT — the iff instantiates with both sides true. -/
theorem c7_retry_iff_witness :
    ((((workflow_on_event_completed routing_table_empty wf_retry 7 0 0
          ERROR_TIMEOUT).2.events.getD 0 default).retry_count =
        ((wf_retry.events.getD 0 default).retry_count + 1) % 256 ∧
      (workflow_on_event_completed routing_table_empty wf_retry 7 0 0
          ERROR_TIMEOUT).1.total_entries =
        routing_table_empty.total_entries + 1) ↔
      (wf_retry.retry_config.enabled = true ∧
       error_is_transient ERROR_TIMEOUT = true ∧
       (wf_retry.events.getD 0 default).retry_count <
         wf_retry.retry_config.max_retries)) :=
  (c7_retry_iff_enabled_transient_below_max routing_table_empty wf_retry 7 0 0
    ERROR_TIMEOUT 0
    { workflow_id := 2, activation_time := 0, total_events := 1,
      completed_events := 0, running_events := 1, error_count := 0,
      failed_event_index := 0 }
    rfl (by decide) (by decide) (by decide)).2

end EDKernel

namespace EDKernel

theorem runLength_le_length (c : Nat) (l : List Nat) :
    runLength c l ≤ l.length := by
  induction l with
  | nil => simp [runLength]
  | cons b t ih =>
    simp only [runLength, List.length_cons]
    split
    · omega
    · omega

theorem take_runLength (c : Nat) (l : List Nat) :
    ∀ k, k ≤ runLength c l → l.take k = List.replicate k c := by
  induction l with
  | nil =>
    intro k hk
    simp only [runLength] at hk
    have : k = 0 := by omega
    subst this
    simp
  | cons b t ih =>
    intro k hk
    simp only [runLength] at hk
    split at hk
    · rename_i hb
      subst hb
      cases k with
      | zero => simp
      | succ k2 =>
        simp only [List.take_succ_cons, List.replicate_succ]
        rw [ih k2 (by omega)]
    · rename_i hb
      have : k = 0 := by omega
      subst this
      simp

theorem rle_compress_go_eq_encode :
    ∀ (n : Nat) (l : List Nat) (cap pos : Nat), l.length ≤ n →
      pos + 2 * l.length ≤ cap →
      rle_compress_go cap l pos = rle_encode l := by
  intro n
  induction n with
  | zero =>
    intro l cap pos hl hcap
    have : l = [] := List.length_eq_zero.mp (by omega)
    subst this
    simp [rle_compress_go, rle_encode]
  | succ m ih =>
    intro l cap pos hl hcap
    cases l with
    | nil => simp [rle_compress_go, rle_encode]
    | cons c t =>
      have hrl := runLength_le_length c t
      have hcond : pos + 2 ≤ cap := by
        simp only [List.length_cons] at hcap
        omega
      simp only [rle_compress_go, rle_encode]
      rw [if_pos hcond]
      congr 1
      congr 1
      apply ih
      · simp only [List.length_drop]
        simp only [List.length_cons] at hl
        omega
      · simp only [List.length_drop]
        simp only [List.length_cons] at hcap
        omega

theorem rle_decompress_go_encode :
    ∀ (n : Nat) (l : List Nat) (cap pos : Nat), l.length ≤ n →
      (∀ b ∈ l, b < 256) → pos + l.length ≤ cap →
      rle_decompress_go cap (rle_encode l) pos = some l := by
  intro n
  induction n with
  | zero =>
    intro l cap pos hl hb hcap
    have : l = [] := List.length_eq_zero.mp (by omega)
    subst this
    simp [rle_encode, rle_decompress_go]
  | succ m ih =>
    intro l cap pos hl hb hcap
    cases l with
    | nil => simp [rle_encode, rle_decompress_go]
    | cons c t =>
      have hc : c < 256 := hb c (List.mem_cons_self c t)
      have hrl := runLength_le_length c t
      have hcnt1 : 1 ≤ min (runLength c t + 1) 255 := by omega
      have hcnt255 : min (runLength c t + 1) 255 ≤ 255 := by omega
      simp only [rle_encode, rle_decompress_go]
      have hmod : min (runLength c t + 1) 255 % 256 % 256 =
          min (runLength c t + 1) 255 := by omega
      rw [hmod]
      simp only [List.length_cons] at hl hcap
      rw [if_neg (by omega)]
      rw [ih (t.drop (min (runLength c t + 1) 255 - 1)) cap
        (pos + min (runLength c t + 1) 255)
        (by simp only [List.length_drop]; omega)
        (fun b hbmem => hb b (List.mem_cons_of_mem c (List.mem_of_mem_drop hbmem)))
        (by simp only [List.length_drop]; omega)]
      rw [Nat.mod_eq_of_lt hc]
      have hrep : List.replicate (min (runLength c t + 1) 255) c =
          c :: List.replicate (min (runLength c t + 1) 255 - 1) c := by
        cases hmin : min (runLength c t + 1) 255 with
        | zero => omega
        | succ k => simp [List.replicate_succ]
      rw [hrep]
      rw [← take_runLength c t (min (runLength c t + 1) 255 - 1) (by omega)]
      simp [List.take_append_drop]

theorem rle_encode_length_even :
    ∀ (n : Nat) (l : List Nat), l.length ≤ n →
      (rle_encode l).length % 2 = 0 := by
  intro n
  induction n with
  | zero =>
    intro l hl
    have : l = [] := List.length_eq_zero.mp (by omega)
    subst this
    simp [rle_encode]
  | succ m ih =>
    intro l hl
    cases l with
    | nil => simp [rle_encode]
    | cons c t =>
      have hrl := runLength_le_length c t
      simp only [rle_encode, List.length_cons]
      have := ih (t.drop (min (runLength c t + 1) 255 - 1))
        (by simp only [List.length_drop]; simp only [List.length_cons] at hl; omega)
      omega

/-- Claim C8: RLE compression followed by RLE decompression returns the
original byte string, for any byte string, whenever the compression
output capacity is at least twice the input length and the decompression
output capacity is at least the original length. -/
theorem c8_rle_roundtrip (input : List Nat) (hb : ∀ b ∈ input, b < 256) :
    rle_decompress (rle_compress input (2 * input.length)) input.length =
      input := by
  cases input with
  | nil => simp [rle_compress, rle_decompress]
  | cons c t =>
    have hcomp : rle_compress (c :: t) (2 * (c :: t).length) =
        rle_encode (c :: t) := by
      unfold rle_compress
      rw [if_neg (by simp)]
      exact rle_compress_go_eq_encode (c :: t).length (c :: t) _ 0 le_rfl
        (by omega)
    rw [hcomp]
    have hlen2 : (rle_encode (c :: t)).length % 2 = 0 :=
      rle_encode_length_even (c :: t).length _ le_rfl
    have hne : (rle_encode (c :: t)).length ≠ 0 := by
      simp [rle_encode]
    unfold rle_decompress
    rw [if_neg (by simp only [not_or]; exact ⟨hne, by simp [hlen2]⟩)]
    rw [rle_decompress_go_encode (c :: t).length (c :: t) (c :: t).length 0
      le_rfl hb (by omega)]

/-- Witness for C8 on the concrete byte string [1,1,2] (compression
capacity 6 = twice the length, decompression capacity 3 = the length). -/
theorem c8_rle_roundtrip_witness :
    rle_decompress (rle_compress [1, 1, 2] 6) 3 = [1, 1, 2] :=
  c8_rle_roundtrip [1, 1, 2] (by decide)

end EDKernel
